import Mathlib

/-!
Verification of the growth-tracking core of the youtuber_monitor_pro
repository: the per-channel history store (utils.py), the inactivity
detector and monitor update loop (monitor.py), and the growth calculator,
quality scorer, tiering and report ordering (generate_report.py).

Modelling conventions.
History files hold rows (date, subscribers) where date is an ISO-8601
string; the code only compares these strings, and lexicographic order on
fixed-format ISO strings agrees with chronological order, so store-level
dates are modelled as natural numbers.  The growth calculator parses the
strings with pandas to_datetime into timestamps; those are modelled as
rationals (days since an epoch, fractions allowed for time of day), and
the .days field of a timedelta is the floor of the difference.  Subscriber
counts are int64 in pandas, modelled as integers; Python floats arising in
rate computations are modelled as exact rationals.
DataFrame operations are modelled on lists: pandas sort_values builds a
stable ascending argsort and, for ascending=False, reverses the whole
index (pandas.core.sorting.nargsort), so a descending sort is the reverse
of the stable ascending sort; drop_duplicates keeps the first occurrence;
head and tail are take and drop.
-/

/-- One persisted history row (utils.py history files, columns
date, subscribers).  The date key is the ISO string under its
lexicographic order, modelled as a natural number. -/
structure SRec where
  date : ℕ
  subs : ℤ
deriving DecidableEq

/-- Comparison used by sort_values("date") on history rows. -/
def dateLe (a b : SRec) : Prop := a.date ≤ b.date

instance : DecidableRel dateLe := fun a b => Nat.decLe a.date b.date

instance : IsTotal SRec dateLe := ⟨fun a b => Nat.le_total a.date b.date⟩

instance : IsTrans SRec dateLe := ⟨fun _ _ _ => Nat.le_trans⟩

/-- Model of pandas sort_values("date") (ascending): a stable sort by the
date column.  Mathlib insertionSort is stable. -/
def pandasSortAsc (l : List SRec) : List SRec := List.insertionSort dateLe l

/-- Model of pandas sort_values("date", ascending=False): pandas computes
the stable ascending argsort and reverses the whole indexer
(pandas.core.sorting.nargsort), so ties appear in reversed original
order. -/
def pandasSortDesc (l : List SRec) : List SRec := (pandasSortAsc l).reverse

/-- Model of drop_duplicates(subset=["date"]) with the default
keep="first": walk the rows in order, keeping a row only when its date
has not been seen yet. -/
def dropDupDate : List ℕ → List SRec → List SRec
  | _, [] => []
  | seen, r :: rs =>
      if r.date ∈ seen then dropDupDate seen rs
      else r :: dropDupDate (r.date :: seen) rs

/-- config.py line 13: MAX_HISTORY_RECORDS defaults to 7. -/
def MAX_HISTORY_RECORDS : ℕ := 7

/-- utils.py lines 148-170, append_history: concatenate the new record,
sort descending by date, drop duplicate dates keeping the first (which,
by the reversal in the descending sort, is the most recently appended
row), truncate to MAX_HISTORY_RECORDS with head, and re-sort
ascending. -/
def append_history (h : List SRec) (d : ℕ) (c : ℤ) : List SRec :=
  pandasSortAsc ((dropDupDate [] (pandasSortDesc (h ++ [⟨d, c⟩]))).take MAX_HISTORY_RECORDS)

/-- The rows present after deduplication but cut off by the
head(MAX_HISTORY_RECORDS) truncation inside append_history. -/
def evictedRecords (h : List SRec) (d : ℕ) (c : ℤ) : List SRec :=
  (dropDupDate [] (pandasSortDesc (h ++ [⟨d, c⟩]))).drop MAX_HISTORY_RECORDS

/-- utils.py lines 172-183, get_channel_history: empty result for a
missing file; df.tail(limit) only when limit is truthy, i.e. neither
None nor 0.  tail n keeps the last n rows, i.e. drops length - n. -/
def get_channel_history (h : List SRec) (limit : Option ℕ) : List SRec :=
  if h.isEmpty then []
  else
    match limit with
    | none => h
    | some n => if n = 0 then h else h.drop (h.length - n)

/-- config.py line 32: MIN_INACTIVE_DAYS defaults to 7. -/
def MIN_INACTIVE_DAYS : ℕ := 7

/-- config.py line 33: GROWTH_THRESHOLD defaults to 0.01. -/
def GROWTH_THRESHOLD : ℚ := 1 / 100

/-- monitor.py lines 121-132, the per-channel decision of
remove_inactive_channels: fetch the last MIN_INACTIVE_DAYS + 1 history
rows, skip when fewer than MIN_INACTIVE_DAYS are available, read
start from iloc[-1] (the last, i.e. newest, row of the
ascending-by-date window) and end from iloc[0] (the oldest row), skip
when start is non-positive, and mark inactive when
(end - start) / start is strictly below GROWTH_THRESHOLD.  The match
fallback is unreachable because the window has at least 7 rows. -/
def inactive_mark (h : List SRec) : Bool :=
  let w := get_channel_history h (some (MIN_INACTIVE_DAYS + 1))
  if w.length < MIN_INACTIVE_DAYS then false
  else
    match w.getLast?, w.head? with
    | some s, some e =>
        if s.subs ≤ 0 then false
        else decide (((e.subs : ℚ) - (s.subs : ℚ)) / (s.subs : ℚ) < GROWTH_THRESHOLD)
    | _, _ => false

/-- Modelled from the spec (section 4.4): the growth ratio the
specification prescribes for the inactivity window, comparing the oldest
count (head of the ascending window) as start with the newest count
(last of the window) as end. -/
def spec_window_growth (w : List SRec) : ℚ :=
  match w.head?, w.getLast? with
  | some old, some new => ((new.subs : ℚ) - (old.subs : ℚ)) / (old.subs : ℚ)
  | _, _ => 0

/-- A strictly growing eight-day history: subscribers rise from 100 to
200 over the window. -/
def risingHistory : List SRec :=
  [⟨1, 100⟩, ⟨2, 110⟩, ⟨3, 120⟩, ⟨4, 130⟩, ⟨5, 140⟩, ⟨6, 150⟩, ⟨7, 160⟩, ⟨8, 200⟩]

/-- A persisted series holding seven records, all with dates newer than
day 1. -/
def sevenNewer : List SRec :=
  [⟨2, 10⟩, ⟨3, 10⟩, ⟨4, 10⟩, ⟨5, 10⟩, ⟨6, 10⟩, ⟨7, 10⟩, ⟨8, 10⟩]

/-- One history row after pandas to_datetime: a timestamp (rational days
since an epoch) and a subscriber count. -/
structure HRec where
  date : ℚ
  subs : ℤ
deriving DecidableEq

/-- One raw history row before date parsing: the date field is none when
the persisted string is malformed (pandas to_datetime raises on it). -/
structure PRec where
  date : Option ℚ
  subs : ℤ
deriving DecidableEq

/-- Comparison used by sort_values("date") on parsed history rows. -/
def qdateLe (a b : HRec) : Prop := a.date ≤ b.date

instance : DecidableRel qdateLe := fun a b => inferInstanceAs (Decidable (a.date ≤ b.date))

instance : IsTotal HRec qdateLe := ⟨fun a b => le_total a.date b.date⟩

instance : IsTrans HRec qdateLe := ⟨fun _ _ _ => le_trans⟩

/-- Stable ascending sort of parsed history rows, the model of
history_df.sort_values("date") in calculate_growth. -/
def pandasSortAscQ (l : List HRec) : List HRec := List.insertionSort qdateLe l

/-- Model of pd.to_datetime over the date column: fails (raises, caught
by calculate_growth) as soon as any row is malformed. -/
def parseDates : List PRec → Option (List HRec)
  | [] => some []
  | r :: rs =>
      match r.date with
      | none => none
      | some q => (parseDates rs).map (fun t => ⟨q, r.subs⟩ :: t)

/-- The growth tuple returned by calculate_growth:
(growth_amount, growth_rate, start_subs, end_subs, data_days). -/
structure GrowthRes where
  amount : ℤ
  rate : ℚ
  startSubs : ℤ
  endSubs : ℤ
  dataDays : ℤ
deriving DecidableEq

/-- The all-zero growth tuple returned on short or malformed histories. -/
def zeroGrowth : GrowthRes := ⟨0, 0, 0, 0, 0⟩

/-- Model of history_df["date"].max(): the maximum of the date column. -/
def qMaxDate : List HRec → ℚ
  | [] => 0
  | f :: t => t.foldl (fun m r => max m r.date) f.date

/-- generate_report.py lines 49-58: the growth tuple built from an anchor
record and the end record; the rate guards against a non-positive start
count. -/
def mkGrowth (sr er : HRec) (d : ℤ) : GrowthRes :=
  let amount := er.subs - sr.subs
  ⟨amount, if 0 < sr.subs then (amount : ℚ) / (sr.subs : ℚ) * 100 else 0, sr.subs, er.subs, d⟩

/-- generate_report.py lines 34-58 on the already sorted history:
end_date is the column maximum, the target start date lies days before
it, the anchor is the last record dated at or before the target
(start_period.iloc[-1]); when no record qualifies the earliest record
(iloc[0]) is the anchor, actual_days is the floored day span to the end
date, and a span under min(3, days) yields a zero tuple carrying
actual_days. -/
def calcGrowthSorted (h : List HRec) (days : ℕ) : GrowthRes :=
  match h with
  | [] => zeroGrowth
  | first :: rest =>
      let endDate := qMaxDate (first :: rest)
      let startDate := endDate - (days : ℚ)
      let startPeriod := (first :: rest).filter (fun r => decide (r.date ≤ startDate))
      let endRec := (first :: rest).getLast (List.cons_ne_nil first rest)
      match startPeriod.getLast? with
      | some sr => mkGrowth sr endRec (days : ℤ)
      | none =>
          let actual : ℤ := ⌊endDate - first.date⌋
          if actual < (min 3 days : ℤ) then ⟨0, 0, 0, 0, actual⟩
          else mkGrowth first endRec actual

/-- generate_report.py lines 13-62, calculate_growth: a history with
fewer than two rows yields the zero tuple; a date column that fails to
parse is caught and yields the zero tuple; otherwise the history is
sorted by date and the window computation runs.  The function is total:
every failure path returns the zero tuple instead of raising. -/
def calculate_growth (l : List PRec) (days : ℕ) : GrowthRes :=
  if l.length < 2 then zeroGrowth
  else
    match parseDates l with
    | none => zeroGrowth
    | some h0 => calcGrowthSorted (pandasSortAscQ h0) days

/-- The monitored snapshot row fields touched by the update loop
(monitor.py): current_subs, last_subs, growth, growth_rate. -/
structure SnapRow where
  current_subs : ℤ
  last_subs : ℤ
  growth : ℤ
  growth_rate : ℚ
deriving DecidableEq

/-- Python round-half-to-even on a rational, the semantics of the
built-in round. -/
def roundHalfEven (q : ℚ) : ℤ :=
  if q - ⌊q⌋ < 1 / 2 then ⌊q⌋
  else if 1 / 2 < q - ⌊q⌋ then ⌊q⌋ + 1
  else if ⌊q⌋ % 2 = 0 then ⌊q⌋ else ⌊q⌋ + 1

/-- Python round(x, 4). -/
def pyRound4 (q : ℚ) : ℚ := (roundHalfEven (q * 10000) : ℚ) / 10000

/-- monitor.py lines 68-82, the per-row core of update_channel_data:
growth is the fetched count minus the previous current count, the rate
is growth over previous times 100 guarded at zero previous, the previous
current count moves into last_subs, the fetched count becomes
current_subs, and the stored growth_rate is round(growth_rate, 4). -/
def update_channel_row (row : SnapRow) (fetched : ℤ) : SnapRow :=
  let prev_current := row.current_subs
  let growth := fetched - prev_current
  let growth_rate : ℚ := if 0 < prev_current then (growth : ℚ) / (prev_current : ℚ) * 100 else 0
  ⟨fetched, prev_current, growth, pyRound4 growth_rate⟩

/-- The three report flavours of generate_report.py. -/
inductive ReportType
  | weekly
  | monthly
  | daily
deriving DecidableEq

/-- generate_report.py lines 176-184: the period-dependent growth-rate
multiplier of calculate_channel_quality. -/
def rateMultiplier : ReportType → ℚ
  | .weekly => 2
  | .monthly => 1
  | .daily => 5

/-- generate_report.py lines 176-184: the period-dependent growth-amount
multiplier of calculate_channel_quality. -/
def amountMultiplier : ReportType → ℚ
  | .weekly => 1 / 5
  | .monthly => 1
  | .daily => 1 / 20

/-- generate_report.py lines 186-192: the subscriber-scale band of
calculate_channel_quality, with strict comparisons at every boundary. -/
def subsScore (current_subs : ℤ) : ℤ :=
  if 1000000 < current_subs then 3
  else if 500000 < current_subs then 2
  else if 100000 < current_subs then 1
  else 0

/-- generate_report.py lines 194-203: the growth-rate band of
calculate_channel_quality on the multiplier-adjusted rate. -/
def rateScore (growth_rate : ℚ) (t : ReportType) : ℤ :=
  let a := growth_rate * rateMultiplier t
  if 20 < a then 4
  else if 15 < a then 3
  else if 10 < a then 2
  else if 5 < a then 1
  else 0

/-- generate_report.py lines 205-212: the growth-amount band of
calculate_channel_quality on the multiplier-adjusted amount. -/
def amountScore (growth_amount : ℤ) (t : ReportType) : ℤ :=
  let a := (growth_amount : ℚ) * amountMultiplier t
  if 10000 < a then 3
  else if 5000 < a then 2
  else if 1000 < a then 1
  else 0

/-- generate_report.py lines 171-214, calculate_channel_quality: the sum
of the three bands, capped at 10. -/
def calculate_channel_quality (current_subs : ℤ) (growth_rate : ℚ) (growth_amount : ℤ)
    (t : ReportType) : ℤ :=
  min (subsScore current_subs + rateScore growth_rate t + amountScore growth_amount t) 10

/-- The four priority tiers of generate_report.py lines 128-135. -/
inductive Tier
  | highPotential
  | qualityGrowth
  | stableGrowth
  | generalGrowth
deriving DecidableEq

/-- generate_report.py lines 128-135: first-match tier assignment against
multiples of the base minimum rate and amount. -/
def assignTier (growth_rate : ℚ) (growth_amount : ℤ) (quality_score : ℤ)
    (minRate : ℚ) (minAmount : ℤ) : Tier :=
  if minRate * 3 < growth_rate ∧ minAmount * 10 < growth_amount ∧ 8 ≤ quality_score then
    .highPotential
  else if minRate * 2 < growth_rate ∧ minAmount * 5 < growth_amount ∧ 6 ≤ quality_score then
    .qualityGrowth
  else if minRate * (3 / 2) < growth_rate ∧ minAmount * 2 < growth_amount then
    .stableGrowth
  else
    .generalGrowth

/-- The sort key pandas uses for the report column holding the tier: the
tier label is a Python string whose first character already decides the
lexicographic comparison, because the four labels start with four
distinct characters.  The code points are U+1F525 for the high-potential
label, U+2B50 for the quality-growth label, U+1F4C8 for the
stable-growth label and U+2705 for the general-growth label. -/
def tierLabelKey : Tier → ℕ
  | .highPotential => 128293
  | .qualityGrowth => 11088
  | .stableGrowth => 128200
  | .generalGrowth => 9989

/-- One report row as far as the final sort is concerned: the tier
column, the quality-score column, and a plain numeric stand-in for the
remaining fields. -/
structure ReportRow where
  tier : Tier
  score : ℤ
  channel : ℕ
deriving DecidableEq

/-- The lexicographic comparison realised by
sort_values([priority, score], ascending=[True, False]): ascending on
the tier label string, descending on the quality score. -/
def reportRowLe (a b : ReportRow) : Prop :=
  tierLabelKey a.tier < tierLabelKey b.tier ∨
    (tierLabelKey a.tier = tierLabelKey b.tier ∧ b.score ≤ a.score)

instance : DecidableRel reportRowLe :=
  fun _a _b => inferInstanceAs (Decidable (_ ∨ _))

instance : IsTotal ReportRow reportRowLe :=
  ⟨fun _a _b => by
    unfold reportRowLe
    omega⟩

instance : IsTrans ReportRow reportRowLe :=
  ⟨fun a b c hab hbc => by
    unfold reportRowLe at *
    omega⟩

/-- generate_report.py line 154: the final stable sort of the report
rows. -/
def sort_report (rows : List ReportRow) : List ReportRow :=
  List.insertionSort reportRowLe rows

/-! ### Helper lemmas about the history store operations -/

/-- Deduplication only removes rows: the result is a sublist of the
input. -/
theorem dropDupDate_sublist (seen : List ℕ) (t : List SRec) :
    List.Sublist (dropDupDate seen t) t := by
  induction t generalizing seen with
  | nil => simp [dropDupDate]
  | cons r rs ih =>
    unfold dropDupDate
    by_cases h : r.date ∈ seen
    · rw [if_pos h]
      exact List.Sublist.cons r (ih seen)
    · rw [if_neg h]
      exact List.Sublist.cons₂ r (ih (r.date :: seen))

/-- A row surviving deduplication has a date outside the seen set. -/
theorem mem_dropDupDate_not_seen :
    ∀ (t : List SRec) (seen : List ℕ) (x : SRec), x ∈ dropDupDate seen t → x.date ∉ seen := by
  intro t
  induction t with
  | nil => intro seen x hx; simp [dropDupDate] at hx
  | cons r rs ih =>
    intro seen x hx
    unfold dropDupDate at hx
    by_cases h : r.date ∈ seen
    · rw [if_pos h] at hx
      exact ih seen x hx
    · rw [if_neg h] at hx
      rcases List.mem_cons.mp hx with rfl | hx2
      · exact h
      · intro hmem
        exact ih (r.date :: seen) x hx2 (List.mem_cons_of_mem _ hmem)

/-- After deduplication the date column is duplicate free. -/
theorem nodup_dates_dropDupDate :
    ∀ (t : List SRec) (seen : List ℕ), ((dropDupDate seen t).map (fun r => r.date)).Nodup := by
  intro t
  induction t with
  | nil => intro seen; simp [dropDupDate]
  | cons r rs ih =>
    intro seen
    unfold dropDupDate
    by_cases h : r.date ∈ seen
    · rw [if_pos h]
      exact ih seen
    · rw [if_neg h]
      simp only [List.map_cons, List.nodup_cons]
      constructor
      · intro hmem
        rcases List.mem_map.mp hmem with ⟨y, hy, hdy⟩
        exact mem_dropDupDate_not_seen rs (r.date :: seen) y hy
          (by rw [hdy]; exact List.mem_cons_self _ _)
      · exact ih (r.date :: seen)

/-- Inserting a row whose date dominates the trailing row commutes with
the trailing append. -/
theorem orderedInsert_append_last (a r : SRec) (s : List SRec) (h : dateLe a r) :
    List.orderedInsert dateLe a (s ++ [r]) = List.orderedInsert dateLe a s ++ [r] := by
  induction s with
  | nil => simp [List.orderedInsert, if_pos h]
  | cons b s ih =>
    by_cases hab : dateLe a b
    · simp [List.orderedInsert, if_pos hab]
    · simp [List.orderedInsert, if_neg hab, ih]

/-- A stable ascending sort keeps a trailing row of maximal date in the
last position. -/
theorem pandasSortAsc_append_max (l : List SRec) (r : SRec)
    (hmax : ∀ x ∈ l, x.date ≤ r.date) :
    pandasSortAsc (l ++ [r]) = pandasSortAsc l ++ [r] := by
  induction l with
  | nil => simp [pandasSortAsc]
  | cons a l ih =>
    have ha : dateLe a r := hmax a (List.mem_cons_self a l)
    have ih2 := ih (fun x hx => hmax x (List.mem_cons_of_mem a hx))
    unfold pandasSortAsc at ih2 ⊢
    rw [List.cons_append]
    simp only [List.insertionSort]
    rw [ih2]
    exact orderedInsert_append_last a r _ ha

/-- Every row of an appended series comes from the old series or is the
new record. -/
theorem mem_append_history (h : List SRec) (d : ℕ) (c : ℤ) (y : SRec)
    (hy : y ∈ append_history h d c) : y ∈ h ++ [⟨d, c⟩] := by
  unfold append_history pandasSortAsc at hy
  have h1 := (List.mem_insertionSort dateLe).mp hy
  have h2 := List.take_subset _ _ h1
  have h3 := (dropDupDate_sublist [] _).subset h2
  unfold pandasSortDesc pandasSortAsc at h3
  rw [List.mem_reverse] at h3
  exact (List.mem_insertionSort dateLe).mp h3

/-- Appending a record whose timestamp dominates the series leaves
exactly that record under its timestamp: the descending pandas sort puts
the fresh row first among equal dates, deduplication keeps it and drops
the older rows with the same date, and truncation keeps the head. -/
theorem append_history_max_filter (h : List SRec) (d : ℕ) (c : ℤ)
    (hmax : ∀ x ∈ h, x.date ≤ d) :
    (append_history h d c).filter (fun r => r.date == d) = [⟨d, c⟩] := by
  have hs : pandasSortAsc (h ++ [⟨d, c⟩]) = pandasSortAsc h ++ [⟨d, c⟩] :=
    pandasSortAsc_append_max h ⟨d, c⟩ hmax
  have hdesc : pandasSortDesc (h ++ [⟨d, c⟩]) = ⟨d, c⟩ :: (pandasSortAsc h).reverse := by
    unfold pandasSortDesc
    rw [hs, List.reverse_append]
    simp
  have hdedup : dropDupDate [] (pandasSortDesc (h ++ [⟨d, c⟩])) =
      ⟨d, c⟩ :: dropDupDate [d] (pandasSortAsc h).reverse := by
    rw [hdesc]
    simp only [dropDupDate]
    simp
  unfold append_history
  rw [hdedup, show MAX_HISTORY_RECORDS = 6 + 1 from rfl, List.take_succ_cons]
  have hperm :
      List.Perm
        (pandasSortAsc (⟨d, c⟩ :: (dropDupDate [d] (pandasSortAsc h).reverse).take 6))
        (⟨d, c⟩ :: (dropDupDate [d] (pandasSortAsc h).reverse).take 6) :=
    List.perm_insertionSort dateLe _
  have hfp := hperm.filter (fun r => r.date == d)
  have hT : ((dropDupDate [d] (pandasSortAsc h).reverse).take 6).filter
      (fun r => r.date == d) = [] := by
    rw [List.filter_eq_nil_iff]
    intro a ha
    have h1 : a ∈ dropDupDate [d] (pandasSortAsc h).reverse := List.take_subset _ _ ha
    have h2 := mem_dropDupDate_not_seen _ _ _ h1
    simp only [List.mem_singleton] at h2
    simp [h2]
  have hone : ((⟨d, c⟩ : SRec) :: (dropDupDate [d] (pandasSortAsc h).reverse).take 6).filter
      (fun r => r.date == d) = [⟨d, c⟩] := by
    rw [List.filter_cons]
    simp [hT]
  rw [hone] at hfp
  exact List.perm_singleton.mp hfp

/-! ### Claim theorems for the history store and the inactivity detector -/

/-- Claim C3, corrected.  The series never keeps two records with the
same timestamp, and in the same-period re-poll case — the appended
timestamp is at least every timestamp already in the series — two
appends with the same timestamp leave exactly one record for that
timestamp, carrying the count of the later call.  (As stated over every
timestamp the claim fails: a timestamp older than the
MAX_HISTORY_RECORDS newest distinct dates is evicted by retention, see
the counterexample.) -/
theorem append_history_same_timestamp :
    (∀ (h : List SRec) (d : ℕ) (c : ℤ),
      ((append_history h d c).map (fun r => r.date)).Nodup) ∧
    (∀ (h : List SRec) (d : ℕ) (c₁ c₂ : ℤ), (∀ x ∈ h, x.date ≤ d) →
      (append_history (append_history h d c₁) d c₂).filter (fun r => r.date == d) =
        [⟨d, c₂⟩]) := by
  constructor
  · intro h d c
    have hperm :
        List.Perm (append_history h d c)
          ((dropDupDate [] (pandasSortDesc (h ++ [⟨d, c⟩]))).take MAX_HISTORY_RECORDS) :=
      List.perm_insertionSort dateLe _
    rw [(hperm.map (fun r => r.date)).nodup_iff]
    have hsub :
        List.Sublist
          (((dropDupDate [] (pandasSortDesc (h ++ [⟨d, c⟩]))).take MAX_HISTORY_RECORDS).map
            (fun r => r.date))
          ((dropDupDate [] (pandasSortDesc (h ++ [⟨d, c⟩]))).map (fun r => r.date)) :=
      (List.take_sublist _ _).map _
    exact List.Nodup.sublist hsub (nodup_dates_dropDupDate _ _)
  · intro h d c₁ c₂ hmax
    apply append_history_max_filter
    intro x hx
    rcases List.mem_append.mp (mem_append_history h d c₁ x hx) with hx1 | hx2
    · exact hmax x hx1
    · rw [List.mem_singleton.mp hx2]

/-- Claim C3, witness: a same-day re-poll over a one-record series keeps
only the later count for the shared timestamp. -/
theorem append_history_same_timestamp_witness :
    (append_history (append_history [⟨1, 5⟩] 2 10) 2 20).filter (fun r => r.date == 2) =
      [⟨2, 20⟩] :=
  append_history_same_timestamp.2 [⟨1, 5⟩] 2 10 20 (by decide)

/-- Claim C3, counterexample: with seven newer records already stored,
appending twice at old timestamp 1 leaves no record at all for that
timestamp — retention evicts it — so the series does not contain exactly
one record with the later count. -/
theorem append_history_same_timestamp_counterexample :
    (append_history (append_history sevenNewer 1 50) 1 60).filter (fun r => r.date == 1) =
      [] := by
  decide

/-- Claim C6, confirmed.  After any append the persisted series holds at
most MAX_HISTORY_RECORDS rows, and every row cut off by the truncation
has a date at most the date of every surviving row: the evicted rows are
the oldest. -/
theorem append_history_retention (h : List SRec) (d : ℕ) (c : ℤ) :
    (append_history h d c).length ≤ MAX_HISTORY_RECORDS ∧
    ∀ r ∈ evictedRecords h d c, ∀ k ∈ append_history h d c, r.date ≤ k.date := by
  constructor
  · unfold append_history pandasSortAsc
    rw [List.length_insertionSort, List.length_take]
    exact min_le_left _ _
  · intro r hr k hk
    have hk2 : k ∈ (dropDupDate [] (pandasSortDesc (h ++ [⟨d, c⟩]))).take MAX_HISTORY_RECORDS := by
      unfold append_history pandasSortAsc at hk
      exact (List.mem_insertionSort dateLe).mp hk
    unfold evictedRecords at hr
    have hsorted : (pandasSortDesc (h ++ [⟨d, c⟩])).Pairwise (fun a b => b.date ≤ a.date) := by
      unfold pandasSortDesc
      rw [List.pairwise_reverse]
      exact List.sorted_insertionSort dateLe _
    have hD : (dropDupDate [] (pandasSortDesc (h ++ [⟨d, c⟩]))).Pairwise
        (fun a b => b.date ≤ a.date) :=
      List.Pairwise.sublist (dropDupDate_sublist _ _) hsorted
    have hD2 : (List.take MAX_HISTORY_RECORDS
          (dropDupDate [] (pandasSortDesc (h ++ [⟨d, c⟩]))) ++
        List.drop MAX_HISTORY_RECORDS
          (dropDupDate [] (pandasSortDesc (h ++ [⟨d, c⟩])))).Pairwise
        (fun a b => b.date ≤ a.date) := by
      rw [List.take_append_drop]
      exact hD
    exact (List.pairwise_append.mp hD2).2.2 k hk2 r hr

/-- Claim C6, witness: appending day 8 to a full seven-day series evicts
the day-1 record, whose date is below that of the surviving day-8
record. -/
theorem append_history_retention_witness :
    (append_history [⟨1, 0⟩, ⟨2, 0⟩, ⟨3, 0⟩, ⟨4, 0⟩, ⟨5, 0⟩, ⟨6, 0⟩, ⟨7, 0⟩] 8 0).length ≤
        MAX_HISTORY_RECORDS ∧
      (⟨1, 0⟩ : SRec).date ≤ (⟨8, 0⟩ : SRec).date :=
  ⟨(append_history_retention [⟨1, 0⟩, ⟨2, 0⟩, ⟨3, 0⟩, ⟨4, 0⟩, ⟨5, 0⟩, ⟨6, 0⟩, ⟨7, 0⟩] 8 0).1,
   (append_history_retention [⟨1, 0⟩, ⟨2, 0⟩, ⟨3, 0⟩, ⟨4, 0⟩, ⟨5, 0⟩, ⟨6, 0⟩, ⟨7, 0⟩] 8 0).2
     ⟨1, 0⟩ (by decide) ⟨8, 0⟩ (by decide)⟩

/-- Claim C10, confirmed.  Reading a non-empty history with limit 0 is
the same as reading it with no limit at all: Python treats 0 as falsy,
so the tail truncation is skipped and the whole series is returned. -/
theorem get_channel_history_zero_limit (h : List SRec) (hne : h ≠ []) :
    get_channel_history h (some 0) = h ∧ get_channel_history h none = h := by
  have he : h.isEmpty = false := by simpa [List.isEmpty_iff] using hne
  constructor <;> simp [get_channel_history, he]

/-- Claim C10, witness: a one-record history read with limit 0 and with
no limit. -/
theorem get_channel_history_zero_limit_witness :
    get_channel_history [⟨1, 100⟩] (some 0) = [⟨1, 100⟩] ∧
      get_channel_history [⟨1, 100⟩] none = [⟨1, 100⟩] :=
  get_channel_history_zero_limit [⟨1, 100⟩] (by decide)

/-- Claim C1, code bug.  The code reads start from the newest row and
end from the oldest, the reverse of the specification, so a channel that
doubled from 100 to 200 subscribers over its eight-record window gets
ratio (100 - 200) / 200 = -1/2 < 0.01 and is marked inactive, while the
ratio prescribed by the claim, (200 - 100) / 100 = 1, is not below the
threshold, so the channel must not be marked. -/
theorem inactive_mark_rising_channel :
    inactive_mark risingHistory = true ∧
      ¬ spec_window_growth risingHistory < GROWTH_THRESHOLD := by
  constructor
  · simp only [inactive_mark, get_channel_history, risingHistory, MIN_INACTIVE_DAYS,
      GROWTH_THRESHOLD]
    norm_num
  · simp only [spec_window_growth, risingHistory, GROWTH_THRESHOLD]
    norm_num

/-! ### Claim theorems for the growth calculator -/

/-- A history containing a malformed date makes the whole parse fail,
as pandas to_datetime raises on the column. -/
theorem parseDates_eq_none {l : List PRec} {x : PRec} (hx : x ∈ l) (hd : x.date = none) :
    parseDates l = none := by
  induction l with
  | nil => simp at hx
  | cons a t ih =>
    rcases List.mem_cons.mp hx with rfl | hx2
    · simp [parseDates, hd]
    · cases ha : a.date with
      | none => simp [parseDates, ha]
      | some q => simp [parseDates, ha, ih hx2]

/-- Claim C9, confirmed.  A history with fewer than two records, or one
whose date column fails to parse, yields the all-zero growth tuple; the
model is a total function, reflecting that every failure path of
calculate_growth returns instead of raising. -/
theorem calculate_growth_insufficient (l : List PRec) (days : ℕ)
    (h : l.length < 2 ∨ ∃ x ∈ l, x.date = none) :
    calculate_growth l days = zeroGrowth := by
  rcases h with h | ⟨x, hx, hd⟩
  · simp [calculate_growth, h]
  · by_cases hl : l.length < 2
    · simp [calculate_growth, hl]
    · simp [calculate_growth, hl, parseDates_eq_none hx hd]

/-- Claim C9, witness: the empty history and a two-record history with a
malformed date both give the zero tuple. -/
theorem calculate_growth_insufficient_witness :
    calculate_growth [] 7 = zeroGrowth ∧
      calculate_growth [⟨none, 5⟩, ⟨some 1, 6⟩] 7 = zeroGrowth :=
  ⟨calculate_growth_insufficient [] 7 (Or.inl (by decide)),
   calculate_growth_insufficient [⟨none, 5⟩, ⟨some 1, 6⟩] 7
     (Or.inr ⟨⟨none, 5⟩, List.mem_cons_self _ _, rfl⟩)⟩

/-- Claim C4, confirmed.  On the history (day 1, 1000), (day 4, 1100),
(day 8, 1300) with a 7-day window the anchor is the day-1 record (the
latest record dated at or before day 8 - 7 = day 1), the amount is 300,
the rate 30 percent, and actual_days is the nominal 7. -/
theorem calculate_growth_nominal_window :
    calculate_growth [⟨some 1, 1000⟩, ⟨some 4, 1100⟩, ⟨some 8, 1300⟩] 7 =
      ⟨300, 30, 1000, 1300, 7⟩ := by
  norm_num [calculate_growth, parseDates, calcGrowthSorted, pandasSortAscQ, qdateLe,
    qMaxDate, mkGrowth, List.insertionSort, List.orderedInsert, List.filter, max_def]

/-- Claim C2, counterexample.  A two-record history spanning one day,
all newer than the 7-day window, returns the all-zero tuple carrying
actual_days equal to 1: the computed amount 200 - 100 is not returned,
contrary to the claim that the computed growth is still returned when
actual_days falls below the reliability floor. -/
theorem calculate_growth_below_floor_zeroed :
    calculate_growth [⟨some 0, 100⟩, ⟨some 1, 200⟩] 7 = ⟨0, 0, 0, 0, 1⟩ ∧
      (0 : ℤ) ≠ 200 - 100 := by
  constructor
  · norm_num [calculate_growth, parseDates, calcGrowthSorted, pandasSortAscQ, qdateLe,
      qMaxDate, List.insertionSort, List.orderedInsert, List.filter, max_def]
  · decide

/-- The fallback branch of the sorted-history computation: when every
record is newer than the window the first record anchors, and the result
is the zero tuple carrying actual_days when the span is under
min(3, days), and the computed growth flagged with actual_days
otherwise. -/
theorem calcGrowthSorted_fallback (sr : HRec) (rest : List HRec) (days : ℕ)
    (hall : ∀ r ∈ sr :: rest, qMaxDate (sr :: rest) - (days : ℚ) < r.date) :
    calcGrowthSorted (sr :: rest) days =
      if ⌊qMaxDate (sr :: rest) - sr.date⌋ < (min 3 days : ℤ) then
        ⟨0, 0, 0, 0, ⌊qMaxDate (sr :: rest) - sr.date⌋⟩
      else
        mkGrowth sr ((sr :: rest).getLast (List.cons_ne_nil sr rest))
          ⌊qMaxDate (sr :: rest) - sr.date⌋ := by
  have hfilter : (sr :: rest).filter
      (fun r => decide (r.date ≤ qMaxDate (sr :: rest) - (days : ℚ))) = [] := by
    rw [List.filter_eq_nil_iff]
    intro a ha
    simp only [decide_eq_true_eq]
    exact not_le.mpr (hall a ha)
  simp only [calcGrowthSorted]
  rw [hfilter]
  rfl

/-- Claim C2, corrected (theorem).  For a history in which every record
is newer than the requested window, the earliest available record is the
anchor and actual_days is the floored day span to the newest date; the
result is the computed growth flagged with the reduced actual_days only
when actual_days reaches min(3, window_days), and otherwise it is the
zero tuple carrying the reduced actual_days. -/
theorem calculate_growth_fallback (l : List PRec) (days : ℕ) (h0 : List HRec)
    (sr : HRec) (rest : List HRec)
    (hlen : ¬ l.length < 2)
    (hparse : parseDates l = some h0)
    (hsort : pandasSortAscQ h0 = sr :: rest)
    (hall : ∀ r ∈ sr :: rest, qMaxDate (sr :: rest) - (days : ℚ) < r.date) :
    calculate_growth l days =
      if ⌊qMaxDate (sr :: rest) - sr.date⌋ < (min 3 days : ℤ) then
        ⟨0, 0, 0, 0, ⌊qMaxDate (sr :: rest) - sr.date⌋⟩
      else
        mkGrowth sr ((sr :: rest).getLast (List.cons_ne_nil sr rest))
          ⌊qMaxDate (sr :: rest) - sr.date⌋ := by
  unfold calculate_growth
  rw [if_neg hlen, hparse]
  show calcGrowthSorted (pandasSortAscQ h0) days = _
  rw [hsort]
  exact calcGrowthSorted_fallback sr rest days hall

/-- Claim C2, witness: a history spanning five days inside a 7-day
window reaches the floor, so the computed growth is returned with the
reduced actual_days of 5. -/
theorem calculate_growth_fallback_witness :
    calculate_growth [⟨some 0, 100⟩, ⟨some 5, 200⟩] 7 = ⟨100, 100, 100, 200, 5⟩ := by
  have h := calculate_growth_fallback [⟨some 0, 100⟩, ⟨some 5, 200⟩] 7
    [⟨0, 100⟩, ⟨5, 200⟩] ⟨0, 100⟩ [⟨5, 200⟩]
    (by decide) (by decide) (by decide)
    (by
      intro r hr
      rcases List.mem_cons.mp hr with rfl | hr2
      · norm_num [qMaxDate, max_def]
      · rw [List.mem_singleton.mp hr2]
        norm_num [qMaxDate, max_def])
  rw [h]
  norm_num [qMaxDate, mkGrowth, max_def, List.getLast]

/-! ### Claim theorems for the monitor update, quality score and report order -/

/-- Claim C5, counterexample.  With previous current count 3 and fetched
count 4 the stored growth_rate is round(100/3, 4) = 33.3333, not the
exact (4 - 3) / 3 * 100 the claim states is stored. -/
theorem update_channel_row_rounding_counterexample :
    (update_channel_row ⟨3, 0, 0, 0⟩ 4).growth_rate = 333333 / 10000 ∧
      ¬ (update_channel_row ⟨3, 0, 0, 0⟩ 4).growth_rate = ((4 : ℚ) - 3) / 3 * 100 := by
  have h : (update_channel_row ⟨3, 0, 0, 0⟩ 4).growth_rate = 333333 / 10000 := by
    norm_num [update_channel_row, pyRound4, roundHalfEven]
  refine ⟨h, ?_⟩
  rw [h]
  norm_num

/-- Claim C5, corrected (theorem).  The update stores the previous
current count into last_subs, the fetched count into current_subs, the
difference into growth, and into growth_rate the value
(fetched - previous) / previous * 100 (zero when the previous count is
not positive) rounded half-to-even at four decimal places; on the
snapshot with previous 10000 and fetched 10500 this gives growth 500 and
stored rate exactly 5. -/
theorem update_channel_row_formula (row : SnapRow) (fetched : ℤ) :
    update_channel_row row fetched =
      ⟨fetched, row.current_subs, fetched - row.current_subs,
        pyRound4 (if 0 < row.current_subs
          then ((fetched - row.current_subs : ℤ) : ℚ) / (row.current_subs : ℚ) * 100
          else 0)⟩ ∧
    update_channel_row ⟨10000, 0, 0, 0⟩ 10500 = ⟨10500, 10000, 500, 5⟩ := by
  constructor
  · rfl
  · have h5 : pyRound4 (((500 : ℤ) : ℚ) / ((10000 : ℤ) : ℚ) * 100) = 5 := by
      norm_num [pyRound4, roundHalfEven]
    simp only [update_channel_row]
    norm_num [h5]
    norm_num [pyRound4, roundHalfEven]

/-- Claim C7, counterexample.  At exactly 1,000,000 subscribers the
subscriber-scale comparison is strict, so with zero rate and amount the
quality score is 2, not the 3 points the claim assigns to the band
containing exactly one million. -/
theorem quality_score_at_one_million :
    calculate_channel_quality 1000000 0 0 ReportType.monthly = 2 ∧ (2 : ℤ) ≠ 3 := by
  constructor
  · norm_num [calculate_channel_quality, subsScore, rateScore, amountScore,
      rateMultiplier, amountMultiplier]
  · decide

/-- Claim C7, corrected (theorem).  The subscriber-scale band awards 3
points only strictly above 1,000,000, 2 points on (500000, 1000000],
1 point on (100000, 500000] and 0 points at or below 100000 — every
boundary value falls in the lower band — and with zero rate and amount
the quality score is the capped subscriber band. -/
theorem subsScore_bands (s : ℤ) :
    (1000000 < s → subsScore s = 3) ∧
    (500000 < s → s ≤ 1000000 → subsScore s = 2) ∧
    (100000 < s → s ≤ 500000 → subsScore s = 1) ∧
    (s ≤ 100000 → subsScore s = 0) ∧
    calculate_channel_quality s 0 0 ReportType.monthly = min (subsScore s) 10 := by
  refine ⟨?_, ?_, ?_, ?_, ?_⟩
  · intro h1
    simp [subsScore, h1]
  · intro h1 h2
    unfold subsScore
    rw [if_neg (by omega), if_pos h1]
  · intro h1 h2
    unfold subsScore
    rw [if_neg (by omega), if_neg (by omega), if_pos h1]
  · intro h1
    unfold subsScore
    rw [if_neg (by omega), if_neg (by omega), if_neg (by omega)]
  · unfold calculate_channel_quality
    norm_num [rateScore, amountScore, rateMultiplier, amountMultiplier]

/-- Claim C7, witness: the four bands at 1000001, 1000000, 100001 and
100000 subscribers. -/
theorem subsScore_bands_witness :
    subsScore 1000001 = 3 ∧ subsScore 1000000 = 2 ∧
      subsScore 100001 = 1 ∧ subsScore 100000 = 0 :=
  ⟨(subsScore_bands 1000001).1 (by decide),
   (subsScore_bands 1000000).2.1 (by decide) (by decide),
   (subsScore_bands 100001).2.2.1 (by decide) (by decide),
   (subsScore_bands 100000).2.2.2.1 (by decide)⟩

/-- Claim C8, code bug.  The report is sorted ascending on the priority
label string, and the leading code points order the labels as
general-growth (U+2705), quality-growth (U+2B50), stable-growth
(U+1F4C8), high-potential (U+1F525): one row of each tier serializes
with the general-growth row first and the high-potential row last,
while the specified order puts high-potential first and general-growth
last.  Within equal tiers the quality score does sort descending, as
the second conjunct shows. -/
theorem sort_report_tier_order :
    sort_report [⟨.highPotential, 9, 1⟩, ⟨.qualityGrowth, 7, 2⟩,
        ⟨.stableGrowth, 5, 3⟩, ⟨.generalGrowth, 3, 4⟩] =
      [⟨.generalGrowth, 3, 4⟩, ⟨.qualityGrowth, 7, 2⟩,
        ⟨.stableGrowth, 5, 3⟩, ⟨.highPotential, 9, 1⟩] ∧
    sort_report [⟨.generalGrowth, 3, 4⟩, ⟨.generalGrowth, 9, 5⟩] =
      [⟨.generalGrowth, 9, 5⟩, ⟨.generalGrowth, 3, 4⟩] := by
  constructor
  · decide
  · decide
